import Mathlib

/-!
Shallow embedding of the L2 agent's in-page capture and crash-detection
logic (the main-world script bundled with popup.js) together with the
popup-side merge routine, and theorems checking the specification's
claims about them.

Conventions used throughout:
* JS property access is modelled by `Option`-typed record fields
  (`none` = property absent / `undefined`).
* JS `a || b` on strings is `jsOrStr` / `jsOrStrOpt` (empty string is falsy).
* Clock values (`Date.now()`) are `Int` milliseconds; ISO timestamp
  strings are represented by the same numeric clock.
* Host functions (JSON.parse, String coercion of objects, stack capture)
  are modelled as oracle fields carried by the input structures.
-/

namespace L2Agent

/-- JS `a || b` for a string `a` (empty string is falsy). -/
def jsOrStr (v : String) (d : String) : String := if v = "" then d else v

/-- JS `a || b` where `a` is a possibly-absent string property. -/
def jsOrStrOpt (v : Option String) (d : String) : String :=
  match v with
  | some s => jsOrStr s d
  | none => d

/-- Truthiness of a possibly-absent string property. -/
def jsTruthyOptStr (v : Option String) : Bool :=
  match v with
  | some s => s != ""
  | none => false

/-- Substring test on char lists (JS `String.prototype.includes`). -/
def listHasSub (pat : List Char) : List Char → Bool
  | [] => pat.isEmpty
  | c :: rest => pat.isPrefixOf (c :: rest) || listHasSub pat rest

/-- JS `s.includes(pat)`. -/
def strHasSub (s pat : String) : Bool := listHasSub pat.toList s.toList

/-- JS regex `/pat$/` (anchored at end of string). -/
def strEndsWith (s pat : String) : Bool := pat.toList.isSuffixOf s.toList

/-- Regex `.*pat`: some same-line (no newline crossed) stretch then `pat`. -/
def dotStarThen (pat : List Char) : List Char → Bool
  | [] => pat.isPrefixOf []
  | c :: rest => pat.isPrefixOf (c :: rest) || (c != '\n' && dotStarThen pat rest)

/-- Regex `p1.*p2` tested anywhere in the char list. -/
def subDotStarSub (p1 p2 : List Char) : List Char → Bool
  | [] => false
  | c :: rest =>
      (p1.isPrefixOf (c :: rest) && dotStarThen p2 ((c :: rest).drop p1.length))
        || subDotStarSub p1 p2 rest

/-- JS `s.slice(0, n)` (the first `n` characters), written on the char
list so that it evaluates inside the kernel. -/
def strTake (s : String) (n : Nat) : String := String.mk (s.toList.take n)

/-- JS `s.trim()`, written on the char list so that it evaluates inside
the kernel. -/
def strTrim (s : String) : String :=
  String.mk (((s.toList.dropWhile Char.isWhitespace).reverse.dropWhile Char.isWhitespace).reverse)

/-- A JS runtime value.  Objects are heap addresses so that cyclic
`cause`/`error`/`reason` chains are representable. -/
inductive JSValue where
  | null
  | undef
  | str (s : String)
  | num (n : Int)
  | bool (b : Bool)
  | fn (src : String)
  | obj (addr : Nat)
deriving DecidableEq, Repr

/-- The properties of a JS object that `extractErrorInfo` reads, plus the
host-provided results of `JSON.stringify` and `String()` coercion.
`isError`/`isErrorEvent`/`isDOMException` model the `instanceof` tests. -/
structure JSObj where
  isError : Bool := false
  isErrorEvent : Bool := false
  isDOMException : Bool := false
  name : Option String := none
  message : Option String := none
  stack : Option String := none
  cause : Option JSValue := none
  code : Option Int := none
  fileName : Option String := none
  lineNumber : Option Int := none
  columnNumber : Option Int := none
  componentStack : Option String := none
  filename : Option String := none
  lineno : Option Int := none
  colno : Option Int := none
  errorProp : Option JSValue := none
  reasonProp : Option JSValue := none
  typeProp : Option String := none
  jsonStr : Option String := none
  ctorName : Option String := none
  strCoerce : String := "[object Object]"
deriving DecidableEq, Repr

/-- A heap assigning an object to every address. -/
def Heap : Type := Nat → JSObj

/-- JS truthiness of a value (objects and functions are always truthy). -/
def jsTruthy : JSValue → Bool
  | .null => false
  | .undef => false
  | .str s => s != ""
  | .num n => n != 0
  | .bool b => b
  | .fn _ => true
  | .obj _ => true

/-- Optional chaining `v?.prop` for a string-valued property: yields the
property when `v` is an object, `undefined` otherwise. -/
def propStr (h : Heap) (v : Option JSValue) (sel : JSObj → Option String) : Option String :=
  match v with
  | some (.obj a) => sel (h a)
  | _ => none

/-- The truthy payload of an optional property (used for
`if (arg.error) ...` / `if (arg.reason) ...`). -/
def truthyVal (v : Option JSValue) : Option JSValue :=
  match v with
  | some w => if jsTruthy w then some w else none
  | none => none

/-- The normalized error record produced by `extractErrorInfo`.  The JS
code returns objects with varying key sets; keys a branch does not set
are `none` here.  The spec calls the `type` field `kind`. -/
structure ErrorInfo where
  type : String
  message : String
  stack : Option String := none
  cause : Option String := none
  code : Option Int := none
  fileName : Option String := none
  lineNumber : Option Int := none
  columnNumber : Option Int := none
  componentStack : Option String := none
  name : Option String := none
  filename : Option String := none
  lineno : Option Int := none
  colno : Option Int := none
deriving DecidableEq, Repr

/-- Model of `extractErrorInfo(arg, depth)` from the main-world script.  Branches
appear in the source's dispatch order; the primitive constructors of
`JSValue` land in the source's final `typeof` return. -/
def extractErrorInfo (h : Heap) (arg : JSValue) (depth : Nat) : ErrorInfo :=
  if _hd : depth > 3 then { message := "[Max depth reached]", type := "unknown" }
  else
    match arg with
    | .null => { message := "null", type := "null" }
    | .undef => { message := "undefined", type := "undefined" }
    | .obj a =>
      let o := h a
      if o.isError then
        { type := jsOrStrOpt o.name "Error"
          message := jsOrStrOpt o.message "No message"
          stack := some (o.stack.getD "")
          cause := match o.cause with
            | some c => if jsTruthy c then some (extractErrorInfo h c (depth + 1)).message else none
            | none => none
          code := o.code
          fileName := o.fileName
          lineNumber := o.lineNumber
          columnNumber := o.columnNumber
          componentStack := o.componentStack }
      else if o.isErrorEvent then
        { type := jsOrStrOpt (propStr h o.errorProp JSObj.name) "ErrorEvent"
          message := jsOrStrOpt o.message (jsOrStrOpt (propStr h o.errorProp JSObj.message) "ErrorEvent")
          stack := some ((propStr h o.errorProp JSObj.stack).getD "")
          filename := o.filename
          lineno := o.lineno
          colno := o.colno }
      else if o.isDOMException then
        { type := "DOMException"
          message := o.message.getD ""
          name := o.name
          code := o.code }
      else if jsTruthyOptStr o.componentStack then
        { type := "ReactError"
          message := jsOrStrOpt o.message o.strCoerce
          componentStack := o.componentStack
          stack := some (jsOrStrOpt (propStr h o.errorProp JSObj.stack) (jsOrStrOpt o.stack "")) }
      else if o.message.isSome then
        { type := jsOrStrOpt o.name (jsOrStrOpt o.typeProp "ObjectError")
          message := o.message.getD ""
          stack := some (o.stack.getD "")
          code := o.code }
      else
        match truthyVal o.errorProp with
        | some v => extractErrorInfo h v (depth + 1)
        | none =>
          match truthyVal o.reasonProp with
          | some v => extractErrorInfo h v (depth + 1)
          | none =>
            match o.jsonStr with
            | some s =>
              if s != "" && s != "\x7b\x7d" then { type := "Object", message := strTake s 2000 }
              else { type := jsOrStrOpt o.ctorName "Object", message := o.strCoerce }
            | none => { type := jsOrStrOpt o.ctorName "Object", message := o.strCoerce }
    | .str s => { type := "string", message := s }
    | .num n => { type := "number", message := toString n }
    | .bool b => { type := "boolean", message := if b then "true" else "false" }
    | .fn src => { type := "function", message := src }
termination_by 4 - depth
decreasing_by all_goals (simp_wf; omega)

/-- Model of `formatArgs(args)`: join the normalized messages with a space,
using `"type: message\nstack"` when a stack is present. -/
def formatArgs (h : Heap) (args : List JSValue) : String :=
  String.intercalate " " (args.map (fun arg =>
    let info := extractErrorInfo h arg 0
    match info.stack with
    | some s => if s = "" then info.message else info.type ++ ": " ++ info.message ++ "\n" ++ s
    | none => info.message))

/-- A captured entry as pushed into `localErrors.console` / `localErrors.page`
and fed to the signal crash detector (console.error / console.warn /
console.assert / uncaught_error / unhandled_rejection shapes). -/
structure Entry where
  type : String
  errorType : String
  message : String
  stack : String := ""
  componentStack : Option String := none
  filename : Option String := none
  lineno : Option Int := none
  colno : Option Int := none
  reason : Option String := none
  timestamp : Int := 0
  url : String := ""
deriving DecidableEq, Repr

/-- A captured network entry (xhr / fetch shapes) as pushed into
`localErrors.api` / `localErrors.apiRequests`. -/
structure ApiEntry where
  type : String
  method : String
  url : String
  status : Int
  statusText : Option String := none
  duration : Int := 0
  requestBody : Option String := none
  responseBody : Option String := none
  isError : Bool := false
  error : Option String := none
  errorType : Option String := none
  errorStack : Option String := none
  errorDetails : Option String := none
  timestamp : Int := 0
deriving DecidableEq, Repr

/-- The main-world `localErrors` store (four ring buffers). -/
structure LocalErrors where
  page : List Entry := []
  console : List Entry := []
  api : List ApiEntry := []
  apiRequests : List ApiEntry := []
deriving DecidableEq, Repr

/-- Page-level ambient data: `location.href`, `START_TIME`, and the
result of `getCurrentStack()`. -/
structure Ctx where
  url : String := ""
  startTime : Int := 0
  currentStack : String := ""
deriving DecidableEq, Repr

/-- The `arr.push(x); if (arr.length > cap) arr.shift();` idiom used by
the bounded capture paths. -/
def boundedPush (cap : Nat) (l : List α) (x : α) : List α :=
  let l := l ++ [x]
  if l.length > cap then l.drop 1 else l

/-- JS `arr.slice(-n)` (the last `n` elements). -/
def sliceLast (n : Nat) (l : List α) : List α := l.drop (l.length - n)

/-- The `CRASH_ERROR_PATTERNS` regex list, expanded in source order
(`i` flag modelled by lowercasing). -/
def matchesCrashPattern (message : String) : Bool :=
  let m := message.toLower
  strEndsWith m "is not defined" ||
  strEndsWith m "is not a function" ||
  strHasSub m "cannot read propert" ||
  strHasSub m "cannot set propert" ||
  strHasSub m "undefined is not" ||
  strHasSub m "null is not" ||
  strHasSub m "maximum call stack" ||
  strHasSub m "out of memory" ||
  subDotStarSub "chunk".toList "failed".toList m.toList ||
  strHasSub m "loading chunk" ||
  strHasSub m "dynamically imported module" ||
  strHasSub m "failed to fetch"

/-- The `CRASH_ERROR_TYPES` allowlist. -/
def CRASH_ERROR_TYPES : List String :=
  ["ReferenceError", "TypeError", "ChunkLoadError", "SyntaxError"]

/-- Model of `isCriticalError(errorType, message)`. -/
def isCriticalError (errorType : String) (message : String) : Bool :=
  CRASH_ERROR_TYPES.contains errorType || matchesCrashPattern message

/-- An element of `recentCriticalErrors`: `{...entry, capturedAt: Date.now()}`. -/
structure CapturedCritical where
  entry : Entry
  capturedAt : Int
deriving DecidableEq, Repr

/-- The `primaryError` summary embedded in an error-based crash event. -/
structure PrimaryError where
  type : String
  message : String
  stack : String
  filename : Option String
  lineno : Option Int
  colno : Option Int
  componentStack : Option String
deriving DecidableEq, Repr

/-- The `crash_detected` payload.  Error-based events carry
`primaryError` and `recentCriticalErrors`; DOM-based events carry
`text`/`html` instead (absent keys are `none`). -/
structure CrashEvent where
  type : String
  detected : Bool
  reason : String
  detectionMethod : String
  primaryError : Option PrimaryError := none
  recentCriticalErrors : Option (List CapturedCritical) := none
  recentConsoleErrors : List Entry
  recentPageErrors : List Entry
  recentApiErrors : List ApiEntry
  recentApiRequests : List ApiEntry
  text : Option String := none
  html : Option String := none
  timestamp : Int
  url : String
  sessionDuration : Int
deriving DecidableEq, Repr

/-- The mutable state of the agent: the local buffers, the signal
detector's window and latch, the scheduled cooldown reset
(`setTimeout` deadline), and the DOM detector's last reported reason. -/
structure AgentState where
  localErrors : LocalErrors := {}
  recentCriticalErrors : List CapturedCritical := []
  crashTriggered : Bool := false
  resetAt : Option Int := none
  lastDOMCrashReason : Option String := none
deriving DecidableEq, Repr

/-- Model of `triggerCrashFromError(primaryError)`: latch, build the
`crash_detected` payload, and schedule the 10000ms cooldown reset. -/
def triggerCrashFromError (ctx : Ctx) (now : Int) (primaryError : Entry)
    (st : AgentState) : AgentState × Option CrashEvent :=
  let st := { st with crashTriggered := true }
  let ev : CrashEvent :=
    { type := "crash"
      detected := true
      reason := "Error: " ++ primaryError.errorType ++ " - " ++ (strTake primaryError.message 100)
      detectionMethod := "error_based"
      primaryError := some
        { type := primaryError.errorType
          message := primaryError.message
          stack := primaryError.stack
          filename := primaryError.filename
          lineno := primaryError.lineno
          colno := primaryError.colno
          componentStack := primaryError.componentStack }
      recentCriticalErrors := some (sliceLast 10 st.recentCriticalErrors)
      recentConsoleErrors := sliceLast 30 st.localErrors.console
      recentPageErrors := sliceLast 20 st.localErrors.page
      recentApiErrors := sliceLast 30 st.localErrors.api
      recentApiRequests := sliceLast 50 st.localErrors.apiRequests
      timestamp := now
      url := ctx.url
      sessionDuration := now - ctx.startTime }
  ({ st with resetAt := some (now + 10000) }, some ev)

/-- Model of `checkForErrorBasedCrash(entry)`. -/
def checkForErrorBasedCrash (ctx : Ctx) (now : Int) (entry : Entry)
    (st : AgentState) : AgentState × Option CrashEvent :=
  if isCriticalError entry.errorType entry.message then
    let cutoff := now - 60000
    let window := (st.recentCriticalErrors ++ [({ entry := entry, capturedAt := now } : CapturedCritical)]).filter
      (fun e => e.capturedAt > cutoff)
    let shouldTriggerCrash :=
      entry.errorType == "ReferenceError" ||
      strHasSub entry.message "is not defined" ||
      jsTruthyOptStr entry.componentStack ||
      decide (window.length ≥ 3)
    let st := { st with recentCriticalErrors := window }
    if shouldTriggerCrash && !st.crashTriggered then
      triggerCrashFromError ctx now entry st
    else (st, none)
  else (st, none)

/-- The cooldown `setTimeout` callback: once its deadline has passed it
clears the latch and the critical-error window.  In the single-threaded
event loop a due timer runs before any later event handler. -/
def fireDueTimers (now : Int) (st : AgentState) : AgentState :=
  match st.resetAt with
  | some t =>
      if t ≤ now then
        { st with crashTriggered := false, recentCriticalErrors := [], resetAt := none }
      else st
  | none => st

/-- Deliver one timestamped entry to the signal detector, first running
any due cooldown timer. -/
def stepEntry (ctx : Ctx) (st : AgentState) (ev : Int × Entry) :
    AgentState × Option CrashEvent :=
  checkForErrorBasedCrash ctx ev.1 ev.2 (fireDueTimers ev.1 st)

/-- One fold step of entry delivery: thread the state and append any
emitted crash event. -/
def runStepF (ctx : Ctx) (a : AgentState × List CrashEvent) (ev : Int × Entry) :
    AgentState × List CrashEvent :=
  ((stepEntry ctx a.1 ev).1, a.2 ++ (stepEntry ctx a.1 ev).2.toList)

/-- Deliver a timestamped entry sequence, collecting emitted crash events. -/
def runEntries (ctx : Ctx) (st : AgentState) (evs : List (Int × Entry)) :
    AgentState × List CrashEvent :=
  evs.foldl (runStepF ctx) (st, [])

/-- A stored record as seen by the popup's `mergePageData`; the merge
only reads `timestamp`, `message` and `url`. -/
structure MEntry where
  timestamp : String
  message : String := ""
  url : String := ""
deriving DecidableEq, Repr

/-- The popup-side `data` object's merged categories. -/
structure MergeData where
  consoleErrors : List MEntry := []
  pageErrors : List MEntry := []
  apiErrors : List MEntry := []
  crashes : List MEntry := []
deriving DecidableEq, Repr

/-- One category of `mergePageData`: push each incoming element unless an
element already present (including ones pushed earlier in the same
pass) matches it under `key`. -/
def mergeList (key : MEntry → MEntry → Bool) (base inc : List MEntry) : List MEntry :=
  inc.foldl (fun acc err => if acc.any (fun e => key e err) then acc else acc ++ [err]) base

/-- Console-category duplicate key: timestamp and message. -/
def consoleKey (e err : MEntry) : Bool :=
  e.timestamp == err.timestamp && e.message == err.message

/-- Page-category duplicate key: timestamp alone. -/
def pageKey (e err : MEntry) : Bool := e.timestamp == err.timestamp

/-- Api-category duplicate key: timestamp and (request) url. -/
def apiKey (e err : MEntry) : Bool :=
  e.timestamp == err.timestamp && e.url == err.url

/-- Crash-category duplicate key: timestamp alone. -/
def crashKey (e err : MEntry) : Bool := e.timestamp == err.timestamp

/-- Model of `mergePageData(pageData)` from popup.js, acting on `data`. -/
def mergePageData (data pageData : MergeData) : MergeData :=
  { consoleErrors := mergeList consoleKey data.consoleErrors pageData.consoleErrors
    pageErrors := mergeList pageKey data.pageErrors pageData.pageErrors
    apiErrors := mergeList apiKey data.apiErrors pageData.apiErrors
    crashes := mergeList crashKey data.crashes pageData.crashes }

/-- An element matched by `document.querySelector`: whether it is
rendered (`offsetParent !== null`) and its visible text and markup. -/
structure DomElement where
  visible : Bool
  innerText : String := ""
  outerHTML : String := ""
deriving DecidableEq, Repr

/-- The rendered document, as the selector queries observe it. -/
def Dom : Type := String → Option DomElement

/-- The `CRASH_SELECTORS` list. -/
def CRASH_SELECTORS : List String :=
  ["[class*=\"error-page\"]",
   "[class*=\"error-screen\"]",
   "[class*=\"crash\"]",
   "[class*=\"something-went-wrong\"]",
   "[data-testid*=\"error\"]",
   ".error-boundary",
   "[class*=\"fatal-error\"]",
   "[class*=\"app-error\"]",
   "[class*=\"server-error\"]",
   "[class*=\"ErrorBoundary\"]",
   "[role=\"alert\"][class*=\"error\"]"]

/-- The match result of `detectDOMCrash` when `detected` is true. -/
structure DomCrash where
  reason : String
  text : String
  html : String
deriving DecidableEq, Repr

/-- The selector loop of `detectDOMCrash`: skip absent or invisible
elements and matches with fewer than 5 visible characters. -/
def scanSelectors (dom : Dom) : List String → Option DomCrash
  | [] => none
  | sel :: rest =>
    match dom sel with
    | some el =>
      if el.visible then
        let text := strTrim el.innerText
        if text.length < 5 then scanSelectors dom rest
        else some
          { reason := "Element: " ++ sel
            text := strTake text 500
            html := strTake el.outerHTML 1000 }
      else scanSelectors dom rest
    | none => scanSelectors dom rest

/-- Model of `detectDOMCrash()`. -/
def detectDOMCrash (dom : Dom) : Option DomCrash := scanSelectors dom CRASH_SELECTORS

/-- Model of `checkForDOMCrash()`: on a first-seen reason remember it, and emit a
`dom_based` crash event unless the signal detector has latched. -/
def checkForDOMCrash (ctx : Ctx) (now : Int) (dom : Dom) (st : AgentState) :
    AgentState × Option CrashEvent :=
  match detectDOMCrash dom with
  | some crash =>
    if some crash.reason ≠ st.lastDOMCrashReason then
      let st := { st with lastDOMCrashReason := some crash.reason }
      if !st.crashTriggered then
        (st, some
          { type := "crash"
            detected := true
            reason := crash.reason
            text := some crash.text
            html := some crash.html
            detectionMethod := "dom_based"
            recentConsoleErrors := sliceLast 30 st.localErrors.console
            recentPageErrors := sliceLast 20 st.localErrors.page
            recentApiErrors := sliceLast 30 st.localErrors.api
            recentApiRequests := sliceLast 50 st.localErrors.apiRequests
            timestamp := now
            url := ctx.url
            sessionDuration := now - ctx.startTime })
      else (st, none)
    else (st, none)
  | none => (st, none)

/-- The request data recorded by the XHR wrapper's `open`/`send`. -/
structure XhrReq where
  method : String
  url : String
  body : Option String := none
deriving DecidableEq, Repr

/-- What the XHR object reports at `loadend`; `responseTextOk` models
whether reading `responseText` throws, `jsonOfBody` the result of
`JSON.parse` on the recorded response body when it succeeds. -/
structure XhrOutcome where
  status : Int
  statusText : String := ""
  responseTextOk : Bool := true
  responseText : String := ""
  jsonOfBody : Option String := none
deriving DecidableEq, Repr

/-- The entry built by the XHR `loadend` listener. -/
def xhrLoadendEntry (req : XhrReq) (start now : Int) (x : XhrOutcome) : ApiEntry :=
  let responseBody := if x.responseTextOk then strTake x.responseText 5000 else ""
  { type := "xhr"
    method := req.method
    url := req.url
    status := x.status
    statusText := some x.statusText
    duration := now - start
    requestBody := req.body
    responseBody := some responseBody
    isError := x.status == 0 || x.status ≥ 400
    timestamp := now }

/-- The XHR `loadend` listener's buffer updates: the entry always goes to
`apiRequests` (capacity 200) and, when `isError`, an `errorDetails`-
augmented copy goes to `api` (capacity 100). -/
def xhrLoadendStore (req : XhrReq) (start now : Int) (x : XhrOutcome)
    (le : LocalErrors) : LocalErrors :=
  let entry := xhrLoadendEntry req start now x
  let le := { le with apiRequests := boundedPush 200 le.apiRequests entry }
  if entry.isError then
    let errorDetails := if (entry.responseBody.getD "") ≠ "" then x.jsonOfBody else none
    { le with api := boundedPush 100 le.api { entry with errorDetails := errorDetails } }
  else le

/-- The XHR `error` listener: pushes into `api` without an eviction check. -/
def xhrErrorStore (req : XhrReq) (start now : Int) (le : LocalErrors) : LocalErrors :=
  let entry : ApiEntry :=
    { type := "xhr_network_error"
      method := req.method
      url := req.url
      status := 0
      error := some "Network error"
      duration := now - start
      isError := true
      timestamp := now }
  { le with api := le.api ++ [entry] }

/-- The XHR `timeout` listener: pushes into `api` without an eviction check. -/
def xhrTimeoutStore (req : XhrReq) (start now : Int) (le : LocalErrors) : LocalErrors :=
  let entry : ApiEntry :=
    { type := "xhr_timeout"
      method := req.method
      url := req.url
      status := 0
      error := some "Request timeout"
      duration := now - start
      isError := true
      timestamp := now }
  { le with api := le.api ++ [entry] }

/-- The first argument of `fetch`. -/
inductive FetchInput where
  | strInput (s : String)
  | reqInput (url : String) (method : Option String)
deriving DecidableEq, Repr

/-- A fetch body: a string or anything else (`FormData`, binary, ...). -/
inductive FetchBody where
  | str (s : String)
  | binary
deriving DecidableEq, Repr

/-- The `init` options object of `fetch`. -/
structure FetchInit where
  method : Option String := none
  body : Option FetchBody := none
deriving DecidableEq, Repr

/-- A fetch `Response`; `bodyTextOk` models whether `clone().text()`
succeeds, `jsonOfBody` the result of `JSON.parse` on the recorded body
when it succeeds. -/
structure FetchResponse where
  status : Int
  statusText : String := ""
  bodyTextOk : Bool := true
  bodyText : String := ""
  jsonOfBody : Option String := none
deriving DecidableEq, Repr

/-- Platform behavior of `Response.ok`: status in the range 200-299. -/
def responseOk (r : FetchResponse) : Bool := decide (200 ≤ r.status ∧ r.status ≤ 299)

/-- The error thrown by the underlying fetch on network failure. -/
structure JsError where
  name : String
  message : String
  stack : String := ""
deriving DecidableEq, Repr

/-- The observable outcome of the underlying (unwrapped) fetch call. -/
inductive FetchOutcome where
  | success (r : FetchResponse)
  | failure (e : JsError)
deriving DecidableEq, Repr

/-- Url resolution `typeof input === "string" ? input : input?.url || String(input)`. -/
def fetchUrl : FetchInput → String
  | .strInput s => s
  | .reqInput u _ => u

/-- Method resolution `init?.method || input?.method || "GET"`. -/
def fetchMethod (init : FetchInit) : FetchInput → String
  | .strInput _ => jsOrStrOpt init.method "GET"
  | .reqInput _ m => jsOrStrOpt init.method (jsOrStrOpt m "GET")

/-- The entry built by the fetch wrapper on a resolved response. -/
def fetchSuccessEntry (input : FetchInput) (init : FetchInit) (start now : Int)
    (r : FetchResponse) : ApiEntry :=
  let responseBody := if r.bodyTextOk then strTake r.bodyText 5000 else ""
  { type := "fetch"
    method := fetchMethod init input
    url := fetchUrl input
    status := r.status
    statusText := some r.statusText
    duration := now - start
    requestBody := match init.body with
      | some (.str s) => if s = "" then none else some (strTake s 2000)
      | some .binary => some "[Binary/FormData]"
      | none => none
    responseBody := some responseBody
    isError := !(responseOk r)
    timestamp := now }

/-- The whole fetch wrapper: record the request, then return the original
response on success or rethrow the original error on failure. -/
def fetchStep (input : FetchInput) (init : FetchInit) (start now : Int)
    (out : FetchOutcome) (le : LocalErrors) : LocalErrors × Except JsError FetchResponse :=
  match out with
  | .success r =>
    let entry := fetchSuccessEntry input init start now r
    let le := { le with apiRequests := boundedPush 200 le.apiRequests entry }
    let le :=
      if !(responseOk r) then
        let errorDetails := if (entry.responseBody.getD "") ≠ "" then r.jsonOfBody else none
        { le with api := boundedPush 100 le.api { entry with errorDetails := errorDetails } }
      else le
    (le, Except.ok r)
  | .failure e =>
    let entry : ApiEntry :=
      { type := "fetch_error"
        method := fetchMethod init input
        url := fetchUrl input
        status := 0
        error := some e.message
        errorType := some e.name
        errorStack := some e.stack
        duration := now - start
        isError := true
        timestamp := now }
    ({ le with api := le.api ++ [entry] }, Except.error e)

/-- The page-visible result of the unwrapped fetch call, written from the
claim's words, to be compared with `fetchStep`'s result. -/
def nativeFetchResult : FetchOutcome → Except JsError FetchResponse
  | .success r => Except.ok r
  | .failure e => Except.error e

/-- The `console.error` override's buffer update (capacity 100). -/
def consoleErrorStore (e : Entry) (le : LocalErrors) : LocalErrors :=
  { le with console := boundedPush 100 le.console e }

/-- The `console.warn` override's buffer update (capacity 100). -/
def consoleWarnStore (e : Entry) (le : LocalErrors) : LocalErrors :=
  { le with console := boundedPush 100 le.console e }

/-- The `window.error` / `unhandledrejection` buffer update (capacity 50). -/
def pageStore (e : Entry) (le : LocalErrors) : LocalErrors :=
  { le with page := boundedPush 50 le.page e }

/-- The `console.assert` override: on a falsy condition build the entry
and push it into the console buffer -- without an eviction check. -/
def consoleAssertHandler (ctx : Ctx) (now : Int) (h : Heap) (cond : Bool)
    (args : List JSValue) (le : LocalErrors) : LocalErrors :=
  if !cond then
    let message := if args.length > 0 then formatArgs h args else "Assertion failed"
    let entry : Entry :=
      { type := "console.assert"
        errorType := "AssertionError"
        message := message
        stack := ctx.currentStack
        timestamp := now
        url := ctx.url }
    { le with console := le.console ++ [entry] }
  else le

/-- The full `console.error` override: extract, build the entry, store,
run the crash check, and forward the untouched argument list to the
saved native `console.error` (the third component). -/
def consoleErrorHandler (ctx : Ctx) (now : Int) (h : Heap) (args : List JSValue)
    (st : AgentState) : AgentState × Option CrashEvent × List JSValue :=
  let errorInfos := args.map (fun a => extractErrorInfo h a 0)
  let primaryError : Option ErrorInfo :=
    match errorInfos.find? (fun e => jsTruthyOptStr e.stack) with
    | some p => some p
    | none => errorInfos.head?
  let entry : Entry :=
    { type := "console.error"
      errorType := jsOrStr (match primaryError with | some p => p.type | none => "") "console.error"
      message := formatArgs h args
      stack := jsOrStr (match primaryError with | some p => (p.stack.getD "") | none => "") ctx.currentStack
      componentStack := primaryError.bind (fun p => p.componentStack)
      timestamp := now
      url := ctx.url }
  let st := { st with localErrors := consoleErrorStore entry st.localErrors }
  let r := checkForErrorBasedCrash ctx now entry st
  (r.1, r.2, args)

/-! ## Helper lemmas -/

theorem jsOrStr_ne_empty (v d : String) (hd : d ≠ "") : jsOrStr v d ≠ "" := by
  unfold jsOrStr
  split <;> simp_all

theorem jsOrStrOpt_ne_empty (o : Option String) (d : String) (hd : d ≠ "") :
    jsOrStrOpt o d ≠ "" := by
  cases o with
  | none => simpa [jsOrStrOpt] using hd
  | some s => exact jsOrStr_ne_empty s d hd

theorem sliceLast_length_le (n : Nat) (l : List α) : (sliceLast n l).length ≤ n := by
  simp only [sliceLast, List.length_drop]
  omega

theorem boundedPush_getLast (cap : Nat) (hc : 1 ≤ cap) (l : List α) (x : α) :
    (boundedPush cap l x).getLast? = some x := by
  unfold boundedPush
  simp only []
  split
  · rename_i hlen
    cases l with
    | nil => simp at hlen; omega
    | cons a as =>
      rw [List.cons_append, List.drop_succ_cons, List.drop_zero]
      exact List.getLast?_concat as
  · exact List.getLast?_concat l

theorem mergeList_cons (key : MEntry → MEntry → Bool) (base : List MEntry)
    (x : MEntry) (xs : List MEntry) :
    mergeList key base (x :: xs) =
      mergeList key (if base.any (fun e => key e x) then base else base ++ [x]) xs := by
  simp [mergeList]

theorem mergeList_append_only (key : MEntry → MEntry → Bool) :
    ∀ (inc base : List MEntry), ∃ s, mergeList key base inc = base ++ s := by
  intro inc
  induction inc with
  | nil => intro base; exact ⟨[], by simp [mergeList]⟩
  | cons x xs ih =>
    intro base
    rw [mergeList_cons]
    by_cases hx : base.any (fun e => key e x)
    · obtain ⟨s, hs⟩ := ih base
      exact ⟨s, by rw [if_pos hx, hs]⟩
    · obtain ⟨s, hs⟩ := ih (base ++ [x])
      exact ⟨[x] ++ s, by rw [if_neg hx, hs, List.append_assoc]⟩

theorem mergeList_covers (key : MEntry → MEntry → Bool)
    (hrefl : ∀ a, key a a = true) :
    ∀ (inc base : List MEntry) (x : MEntry), x ∈ inc →
      (mergeList key base inc).any (fun e => key e x) = true := by
  intro inc
  induction inc with
  | nil => intro base x hx; cases hx
  | cons y ys ih =>
    intro base x hx
    rw [mergeList_cons]
    rcases List.mem_cons.mp hx with rfl | hmem
    · have hbase : (if base.any (fun e => key e x) then base else base ++ [x]).any
          (fun e => key e x) = true := by
        by_cases hb : base.any (fun e => key e x)
        · rw [if_pos hb]; exact hb
        · rw [if_neg hb]
          simp [List.any_append, hrefl x]
      obtain ⟨s, hs⟩ := mergeList_append_only key ys
        (if base.any (fun e => key e x) then base else base ++ [x])
      rw [hs, List.any_append, hbase, Bool.true_or]
    · exact ih _ x hmem

theorem mergeList_of_covered (key : MEntry → MEntry → Bool) :
    ∀ (inc base : List MEntry),
      (∀ x ∈ inc, base.any (fun e => key e x) = true) →
      mergeList key base inc = base := by
  intro inc
  induction inc with
  | nil => intro base _; simp [mergeList]
  | cons y ys ih =>
    intro base hcov
    rw [mergeList_cons, if_pos (hcov y (List.mem_cons_self y ys))]
    exact ih base (fun x hx => hcov x (List.mem_cons_of_mem y hx))

theorem mergeList_idem (key : MEntry → MEntry → Bool)
    (hrefl : ∀ a, key a a = true) (base inc : List MEntry) :
    mergeList key (mergeList key base inc) inc = mergeList key base inc :=
  mergeList_of_covered key inc (mergeList key base inc)
    (fun x hx => mergeList_covers key hrefl inc base x hx)

theorem consoleKey_refl (a : MEntry) : consoleKey a a = true := by simp [consoleKey]

theorem pageKey_refl (a : MEntry) : pageKey a a = true := by simp [pageKey]

theorem apiKey_refl (a : MEntry) : apiKey a a = true := by simp [apiKey]

theorem crashKey_refl (a : MEntry) : crashKey a a = true := by simp [crashKey]

/-! ## Claim theorems -/

/-- Claim C5: `mergePageData` only appends to the base data -- it never
mutates, removes, or reorders elements already present -- and merging the
same incoming snapshot a second time changes nothing, duplicates being
rejected by the per-category keys (console: timestamp+message; page:
timestamp; api: timestamp+url; crash: timestamp). -/
theorem c5_merge_append_only_idempotent (d i : MergeData) :
    (∃ s1 s2 s3 s4, mergePageData d i =
      { consoleErrors := d.consoleErrors ++ s1
        pageErrors := d.pageErrors ++ s2
        apiErrors := d.apiErrors ++ s3
        crashes := d.crashes ++ s4 }) ∧
    mergePageData (mergePageData d i) i = mergePageData d i := by
  constructor
  · obtain ⟨s1, h1⟩ := mergeList_append_only consoleKey i.consoleErrors d.consoleErrors
    obtain ⟨s2, h2⟩ := mergeList_append_only pageKey i.pageErrors d.pageErrors
    obtain ⟨s3, h3⟩ := mergeList_append_only apiKey i.apiErrors d.apiErrors
    obtain ⟨s4, h4⟩ := mergeList_append_only crashKey i.crashes d.crashes
    exact ⟨s1, s2, s3, s4, by simp [mergePageData, h1, h2, h3, h4]⟩
  · simp only [mergePageData]
    rw [mergeList_idem consoleKey consoleKey_refl,
        mergeList_idem pageKey pageKey_refl,
        mergeList_idem apiKey apiKey_refl,
        mergeList_idem crashKey crashKey_refl]

/-- Claim C10: interception is transparent -- the overridden
`console.error` forwards exactly the original argument list to the saved
native `console.error`, and the wrapped `fetch` resolves with the
original response on success and rethrows the original exception on
failure. -/
theorem c10_interception_transparent (ctx : Ctx) (now : Int) (h : Heap)
    (args : List JSValue) (st : AgentState) (input : FetchInput)
    (finit : FetchInit) (start tnow : Int) (out : FetchOutcome) (le : LocalErrors) :
    (consoleErrorHandler ctx now h args st).2.2 = args ∧
    (fetchStep input finit start tnow out le).2 = nativeFetchResult out := by
  refine ⟨rfl, ?_⟩
  cases out <;> rfl

/-- Claim C2 counterexample: the normalizer applied to the empty string
returns `message = ""`, so the message field is not always non-empty. -/
theorem c2_counterexample_empty_string :
    (extractErrorInfo (fun _ => {}) (JSValue.str "") 0).message = "" ∧
    (extractErrorInfo (fun _ => {}) (JSValue.str "") 0).type = "string" := by
  constructor <;> simp [extractErrorInfo]

/-- Claim C2 (amended): for every input value `extractErrorInfo(v, depth)`
terminates (it is a total function of this model) and returns a record
whose kind/type field is a non-empty string; the message field can be
empty (for example on the empty-string input). -/
theorem extract_type_ne_empty_aux (h : Heap) :
    ∀ (n : Nat) (v : JSValue) (depth : Nat), 4 - depth ≤ n →
      (extractErrorInfo h v depth).type ≠ "" := by
  have lErr : ∀ o, jsOrStrOpt o "Error" ≠ "" := fun o => jsOrStrOpt_ne_empty o _ (by decide)
  have lEv : ∀ o, jsOrStrOpt o "ErrorEvent" ≠ "" := fun o => jsOrStrOpt_ne_empty o _ (by decide)
  have lObjE : ∀ o o2, jsOrStrOpt o (jsOrStrOpt o2 "ObjectError") ≠ "" :=
    fun o o2 => jsOrStrOpt_ne_empty o _ (jsOrStrOpt_ne_empty o2 _ (by decide))
  have lObj : ∀ o, jsOrStrOpt o "Object" ≠ "" := fun o => jsOrStrOpt_ne_empty o _ (by decide)
  intro n
  induction n with
  | zero =>
    intro v depth hle
    rw [extractErrorInfo.eq_def]
    have hgt : 3 < depth := by omega
    simp [hgt]
  | succ n ih =>
    intro v depth hle
    by_cases hd : 3 < depth
    · rw [extractErrorInfo.eq_def]; simp [hd]
    · rw [extractErrorInfo.eq_def, dif_neg hd]
      cases v with
      | null => simp
      | undef => simp
      | str s => simp
      | num m => simp
      | bool b => cases b <;> simp
      | fn src => simp
      | obj a =>
        simp only []
        split_ifs with h1 h2 h3 h4 h5
        · simpa using lErr ((h a).name)
        · simpa using lEv (propStr h (h a).errorProp JSObj.name)
        · simp
        · simp
        · simpa using lObjE ((h a).name) ((h a).typeProp)
        · split
          · exact ih _ (depth + 1) (by omega)
          · split
            · exact ih _ (depth + 1) (by omega)
            · split
              · split_ifs
                · simp
                · simpa using lObj ((h a).ctorName)
              · simpa using lObj ((h a).ctorName)

/-- Claim C2 (amended): for every input value `extractErrorInfo(v, depth)`
terminates (it is a total function of this model) and returns a record
whose kind/type field is a non-empty string; the message field can be
empty (for example on the empty-string input). -/
theorem c2_normalize_total_type_nonempty (h : Heap) (v : JSValue) (depth : Nat) :
    (extractErrorInfo h v depth).type ≠ "" :=
  extract_type_ne_empty_aux h (4 - depth) v depth (by omega)

/-- An object that `extractErrorInfo` always unwraps one level further: no
instance tags, no component stack, no message, and a truthy object-valued
`error` (or, failing that, `reason`) property. -/
def PureWrapper (o : JSObj) : Prop :=
  o.isError = false ∧ o.isErrorEvent = false ∧ o.isDOMException = false ∧
  jsTruthyOptStr o.componentStack = false ∧ o.message = none ∧
  ((∃ b, truthyVal o.errorProp = some (JSValue.obj b)) ∨
   (truthyVal o.errorProp = none ∧ ∃ b, truthyVal o.reasonProp = some (JSValue.obj b)))

theorem extract_pureWrapper_sentinel (h : Heap) (hw : ∀ b, PureWrapper (h b)) :
    ∀ (n a depth : Nat), 4 - depth ≤ n →
      extractErrorInfo h (.obj a) depth =
        { type := "unknown", message := "[Max depth reached]" } := by
  intro n
  induction n with
  | zero =>
    intro a depth hle
    rw [extractErrorInfo.eq_def]
    have hgt : 3 < depth := by omega
    simp [hgt]
  | succ n ih =>
    intro a depth hle
    by_cases hd : 3 < depth
    · rw [extractErrorInfo.eq_def]; simp [hd]
    · obtain ⟨h1, h2, h3, h4, h5, h6⟩ := hw a
      rw [extractErrorInfo.eq_def]
      rcases h6 with ⟨b, hb⟩ | ⟨hnone, b, hb⟩
      · simp only [hd, if_false, h1, h2, h3, h4, h5, hb, Bool.false_eq_true, Option.isSome_none]
        exact ih b (depth + 1) (by omega)
      · simp only [hd, if_false, h1, h2, h3, h4, h5, hnone, hb, Bool.false_eq_true,
          Option.isSome_none]
        exact ih b (depth + 1) (by omega)

/-- Claim C3: on any heap of pure `error`/`reason` wrappers -- which
includes cyclic chains, since objects are heap references -- the
normalizer stops at the depth cap and returns the sentinel record
`{kind := "unknown", message := "[Max depth reached]"}`; in particular
normalization is bounded and cannot loop. -/
theorem c3_depth_cap_sentinel (h : Heap) (hw : ∀ b, PureWrapper (h b)) (a : Nat) :
    extractErrorInfo h (JSValue.obj a) 0 =
      { type := "unknown", message := "[Max depth reached]" } :=
  extract_pureWrapper_sentinel h hw 4 a 0 (by omega)

/-- A heap where every object wraps the object at address 0: address 0 is
a cyclic `error` chain (it wraps itself). -/
def cyclicHeap : Heap := fun _ => { errorProp := some (.obj 0) }

/-- Witness for C3: the self-referential wrapper chain normalizes to the
max-depth sentinel. -/
theorem c3_depth_cap_sentinel_witness :
    (∀ b, PureWrapper (cyclicHeap b)) ∧
    extractErrorInfo cyclicHeap (JSValue.obj 0) 0 =
      { type := "unknown", message := "[Max depth reached]" } := by
  have hw : ∀ b, PureWrapper (cyclicHeap b) :=
    fun b => ⟨rfl, rfl, rfl, rfl, rfl, Or.inl ⟨0, rfl⟩⟩
  exact ⟨hw, c3_depth_cap_sentinel cyclicHeap hw 0⟩

/-- The concrete claim-C6 entry. -/
def refErrorEntry : Entry :=
  { type := "uncaught_error", errorType := "ReferenceError", message := "x is not defined" }

/-- Claim C6: with an empty critical-error window and the latch clear, a
single entry with errorKind "ReferenceError" and message
"x is not defined" makes the signal detector immediately emit one
CrashEvent with detectionMethod "error_based" whose primaryError message
is "x is not defined". -/
theorem c6_single_reference_error_triggers (ctx : Ctx) (now : Int) (st : AgentState)
    (hlatch : st.crashTriggered = false) (hwin : st.recentCriticalErrors = []) :
    ((checkForErrorBasedCrash ctx now refErrorEntry st).2.map
      (fun ev => (ev.detectionMethod, ev.primaryError.map PrimaryError.message))) =
      some ("error_based", some "x is not defined") := by
  have hc : isCriticalError "ReferenceError" "x is not defined" = true := by decide
  have hfilter : now - 60000 < now := by omega
  simp [checkForErrorBasedCrash, hc, hwin, hlatch, triggerCrashFromError, refErrorEntry, hfilter]

/-- Witness for C6 at the initial agent state and clock zero. -/
theorem c6_single_reference_error_triggers_witness :
    ((checkForErrorBasedCrash {} 0 refErrorEntry {}).2.map
      (fun ev => (ev.detectionMethod, ev.primaryError.map PrimaryError.message))) =
      some ("error_based", some "x is not defined") :=
  c6_single_reference_error_triggers {} 0 {} rfl rfl

/-- Claim C9: every emitted crash event -- error-based or DOM-based --
carries at most 10 recentCriticalErrors and console/page/api/apiRequests
snapshots of at most 30/20/30/50 elements. -/
theorem c9_crash_event_payload_bounds (ctx : Ctx) (now : Int) (st : AgentState) :
    (∀ (e : Entry) (ev : CrashEvent), (checkForErrorBasedCrash ctx now e st).2 = some ev →
      (∀ l, ev.recentCriticalErrors = some l → l.length ≤ 10) ∧
      ev.recentConsoleErrors.length ≤ 30 ∧ ev.recentPageErrors.length ≤ 20 ∧
      ev.recentApiErrors.length ≤ 30 ∧ ev.recentApiRequests.length ≤ 50) ∧
    (∀ (dom : Dom) (ev : CrashEvent), (checkForDOMCrash ctx now dom st).2 = some ev →
      (∀ l, ev.recentCriticalErrors = some l → l.length ≤ 10) ∧
      ev.recentConsoleErrors.length ≤ 30 ∧ ev.recentPageErrors.length ≤ 20 ∧
      ev.recentApiErrors.length ≤ 30 ∧ ev.recentApiRequests.length ≤ 50) := by
  constructor
  · intro e ev hev
    unfold checkForErrorBasedCrash triggerCrashFromError at hev
    simp only [] at hev
    split at hev
    · split at hev
      · simp only [Option.some.injEq] at hev
        subst hev
        refine ⟨?_, sliceLast_length_le 30 _, sliceLast_length_le 20 _,
          sliceLast_length_le 30 _, sliceLast_length_le 50 _⟩
        intro l hl
        simp only [Option.some.injEq] at hl
        subst hl
        exact sliceLast_length_le 10 _
      · simp at hev
    · simp at hev
  · intro dom ev hev
    unfold checkForDOMCrash at hev
    split at hev
    · split at hev
      · simp only [] at hev
        split at hev
        · simp only [Option.some.injEq] at hev
          subst hev
          refine ⟨?_, sliceLast_length_le 30 _, sliceLast_length_le 20 _,
            sliceLast_length_le 30 _, sliceLast_length_le 50 _⟩
          intro l hl
          simp at hl
        · simp at hev
      · simp at hev
    · simp at hev

/-- A throwaway default event used only to name computed events in
witness statements. -/
def dummyCrashEvent : CrashEvent :=
  { type := "", detected := false, reason := "", detectionMethod := ""
    recentConsoleErrors := [], recentPageErrors := [], recentApiErrors := []
    recentApiRequests := [], timestamp := 0, url := "", sessionDuration := 0 }

/-- A one-element document showing a visible crash screen. -/
def sampleCrashDom : Dom :=
  fun _ => some { visible := true, innerText := "Something went wrong" }

/-- Witness for C9: concrete bounds for the event emitted by the C6
scenario and for a DOM-detected event on a one-element document. -/
theorem c9_crash_event_payload_bounds_witness :
    (((checkForErrorBasedCrash {} 0 refErrorEntry {}).2.getD
        dummyCrashEvent).recentConsoleErrors.length ≤ 30) ∧
    (((checkForDOMCrash {} 0 sampleCrashDom {}).2.getD
        dummyCrashEvent).recentApiRequests.length ≤ 50) := by
  constructor
  · exact ((c9_crash_event_payload_bounds {} 0 {}).1 refErrorEntry
      ((checkForErrorBasedCrash {} 0 refErrorEntry {}).2.getD dummyCrashEvent) rfl).2.1
  · exact ((c9_crash_event_payload_bounds {} 0 {}).2 sampleCrashDom
      ((checkForDOMCrash {} 0 sampleCrashDom {}).2.getD dummyCrashEvent) (by rfl)).2.2.2.2

/-- Claim C8 counterexample: a fetch resolving with status 304 is
recorded with `isError = true` (the wrapper uses `!response.ok`),
although 304 is neither 0 nor at least 400. -/
theorem c8_counterexample_status_304 :
    ((fetchStep (FetchInput.strInput "/api/orders") {} 0 5
        (FetchOutcome.success { status := 304 }) {}).1.apiRequests.map
      (fun e => (e.status, e.isError))) = [(304, true)] ∧
    ¬((304 : Int) = 0 ∨ (304 : Int) ≥ 400) := by
  exact ⟨rfl, by decide⟩

/-- Claim C8 (amended): xhr-recorded entries carry `isError` exactly when
status is 0 or at least 400; fetch-recorded entries carry `isError`
exactly when the response is not ok (status outside 200..299);
explicitly failed requests -- the xhr error/timeout listeners and the
fetch exception path -- are recorded with status 0 and `isError` true;
and every completed request with status at least 400 -- xhr or fetch --
is appended to both the apiRequests buffer and the api errors buffer. -/
theorem c8_isError_and_error_buffer (req : XhrReq) (start now : Int) (x : XhrOutcome)
    (input : FetchInput) (finit : FetchInit) (r : FetchResponse) (err : JsError)
    (le : LocalErrors) :
    ((xhrLoadendEntry req start now x).isError = (x.status == 0 || decide (x.status ≥ 400))) ∧
    ((fetchSuccessEntry input finit start now r).isError = !(responseOk r)) ∧
    (x.status ≥ 400 →
      ((xhrLoadendStore req start now x le).apiRequests.getLast? =
          some (xhrLoadendEntry req start now x)) ∧
      ((xhrLoadendStore req start now x le).api.getLast? =
          some { xhrLoadendEntry req start now x with
                   errorDetails :=
                     if ((xhrLoadendEntry req start now x).responseBody.getD "") ≠ ""
                     then x.jsonOfBody else none })) ∧
    (r.status ≥ 400 →
      ((fetchStep input finit start now (FetchOutcome.success r) le).1.apiRequests.getLast? =
          some (fetchSuccessEntry input finit start now r)) ∧
      ((fetchStep input finit start now (FetchOutcome.success r) le).1.api.getLast? =
          some { fetchSuccessEntry input finit start now r with
                   errorDetails :=
                     if ((fetchSuccessEntry input finit start now r).responseBody.getD "") ≠ ""
                     then r.jsonOfBody else none })) ∧
    ((xhrErrorStore req start now le).api.getLast?.map
        (fun e => (e.status, e.isError)) = some (0, true)) ∧
    ((xhrTimeoutStore req start now le).api.getLast?.map
        (fun e => (e.status, e.isError)) = some (0, true)) ∧
    ((fetchStep input finit start now (FetchOutcome.failure err) le).1.api.getLast?.map
        (fun e => (e.status, e.isError)) = some (0, true)) := by
  refine ⟨rfl, rfl, ?_, ?_, ?_, ?_, ?_⟩
  · intro h400
    have hErr : (xhrLoadendEntry req start now x).isError = true := by
      simp [xhrLoadendEntry]
      right
      omega
    constructor
    · unfold xhrLoadendStore
      simp only [hErr, if_true]
      exact boundedPush_getLast 200 (by omega) _ _
    · unfold xhrLoadendStore
      simp only [hErr, if_true]
      exact boundedPush_getLast 100 (by omega) _ _
  · intro h400
    have hok : responseOk r = false := by
      simp [responseOk]
      omega
    constructor
    · unfold fetchStep
      simp only [hok, Bool.not_false, if_true]
      exact boundedPush_getLast 200 (by omega) _ _
    · unfold fetchStep
      simp only [hok, Bool.not_false, if_true]
      exact boundedPush_getLast 100 (by omega) _ _
  · unfold xhrErrorStore
    simp only []
    rw [List.getLast?_concat]
    rfl
  · unfold xhrTimeoutStore
    simp only []
    rw [List.getLast?_concat]
    rfl
  · unfold fetchStep
    simp only []
    rw [List.getLast?_concat]
    rfl

/-- Witness for C8 (amended) at the spec's concrete scenario: a GET
returning 503 lands in both buffers for xhr and for fetch, and a fetch
that throws is recorded with status 0 and isError true. -/
theorem c8_isError_and_error_buffer_witness :
    ((xhrLoadendStore { method := "GET", url := "/api/orders" } 0 5 { status := 503 }
        {}).apiRequests.getLast? =
      some (xhrLoadendEntry { method := "GET", url := "/api/orders" } 0 5 { status := 503 })) ∧
    ((xhrLoadendStore { method := "GET", url := "/api/orders" } 0 5 { status := 503 }
        {}).api.getLast?.map ApiEntry.status = some 503) ∧
    ((fetchStep (FetchInput.strInput "/api/orders") {} 0 5
        (FetchOutcome.success { status := 503 }) {}).1.apiRequests.getLast? =
      some (fetchSuccessEntry (FetchInput.strInput "/api/orders") {} 0 5 { status := 503 })) ∧
    ((fetchStep (FetchInput.strInput "/api/orders") {} 0 5
        (FetchOutcome.success { status := 503 }) {}).1.api.getLast?.map ApiEntry.status =
      some 503) ∧
    ((fetchStep (FetchInput.strInput "/api/orders") {} 0 5
        (FetchOutcome.failure { name := "TypeError", message := "Failed to fetch" })
        {}).1.api.getLast?.map (fun e => (e.status, e.isError)) = some (0, true)) := by
  have h := c8_isError_and_error_buffer { method := "GET", url := "/api/orders" } 0 5
    { status := 503 } (FetchInput.strInput "/api/orders") {} { status := 503 }
    { name := "TypeError", message := "Failed to fetch" } {}
  refine ⟨(h.2.2.1 (by decide)).1, ?_, (h.2.2.2.1 (by decide)).1, ?_, h.2.2.2.2.2.2⟩
  · rw [(h.2.2.1 (by decide)).2]; rfl
  · rw [(h.2.2.2.1 (by decide)).2]; rfl

/-- A console-capture entry used to fill buffers in the C4 scenario. -/
def sampleConsoleEntry : Entry :=
  { type := "console.error", errorType := "console.error", message := "boom" }

/-- The C4 xhr request used to fill the api buffer. -/
def sampleXhrReq : XhrReq := { method := "GET", url := "/api/orders" }

set_option maxRecDepth 4000 in
/-- Claim C4: the console buffer path through `console.error` keeps the
capacity of 100, but the `console.assert` capture path pushes without
evicting, leaving 101 elements; likewise the xhr error listener pushes
into the api buffer (capacity 100) without evicting, leaving 101. -/
theorem c4_assert_and_xhr_error_push_unbounded :
    (((List.range 100).foldl (fun le _ => consoleErrorStore sampleConsoleEntry le)
        {}).console.length = 100) ∧
    ((consoleAssertHandler {} 0 (fun _ => {}) false []
        ((List.range 100).foldl (fun le _ => consoleErrorStore sampleConsoleEntry le)
          {})).console.length = 101) ∧
    (((List.range 100).foldl
        (fun le _ => xhrLoadendStore sampleXhrReq 0 0 { status := 500 } le)
        {}).api.length = 100) ∧
    ((xhrErrorStore sampleXhrReq 0 0
        ((List.range 100).foldl
          (fun le _ => xhrLoadendStore sampleXhrReq 0 0 { status := 500 } le)
          {})).api.length = 101) := by
  refine ⟨by decide, by decide, by decide, by decide⟩

/-- Claim C7: a DOM check emits a dom_based event exactly when the first
visible selector match's reason differs from the last reported reason
and the signal detector has not latched; a detected differing reason is
then remembered; every emitted event is dom_based; and an immediate
second check on the unchanged document emits nothing. -/
theorem c7_dom_check_dedup (ctx : Ctx) (now : Int) (dom : Dom) (st : AgentState) :
    (((checkForDOMCrash ctx now dom st).2.isSome = true) ↔
      (∃ c, detectDOMCrash dom = some c ∧ some c.reason ≠ st.lastDOMCrashReason ∧
        st.crashTriggered = false)) ∧
    (∀ c, detectDOMCrash dom = some c → some c.reason ≠ st.lastDOMCrashReason →
      (checkForDOMCrash ctx now dom st).1.lastDOMCrashReason = some c.reason) ∧
    (∀ ev, (checkForDOMCrash ctx now dom st).2 = some ev →
      ev.detectionMethod = "dom_based") ∧
    ((checkForDOMCrash ctx now dom (checkForDOMCrash ctx now dom st).1).2 = none) := by
  unfold checkForDOMCrash
  rcases hdet : detectDOMCrash dom with _ | c
  · simp [hdet]
  · simp only [hdet]
    by_cases hr : some c.reason ≠ st.lastDOMCrashReason
    · simp only [if_pos hr]
      by_cases hl : st.crashTriggered
      · simp [hl, hr, hdet]
      · simp only [Bool.not_eq_true] at hl
        simp [hl, hr, hdet]
    · simp only [if_neg hr]
      simp only [not_not] at hr
      simp [hr, hdet]

/-- Witness for C7: on a concrete crash screen from the clean initial
state, the check does emit an event. -/
theorem c7_dom_check_dedup_witness :
    (checkForDOMCrash {} 0 sampleCrashDom {}).2.isSome = true := by
  exact (c7_dom_check_dedup {} 0 sampleCrashDom {}).1.mpr
    ⟨{ reason := "Element: [class*=\"error-page\"]"
       text := "Something went wrong", html := "" },
      by rfl, by decide, rfl⟩

/-! ## Signal-detector temporal lemmas for claim C1 -/

theorem runEntries_acc (ctx : Ctx) :
    ∀ (evs : List (Int × Entry)) (st : AgentState) (acc : List CrashEvent),
      evs.foldl (runStepF ctx) (st, acc) =
        ((runEntries ctx st evs).1, acc ++ (runEntries ctx st evs).2) := by
  intro evs
  induction evs with
  | nil => intro st acc; simp [runEntries]
  | cons ev evs ih =>
    intro st acc
    simp only [runEntries, List.foldl_cons, runStepF]
    rw [ih, ih]
    simp

theorem runEntries_cons (ctx : Ctx) (st : AgentState) (ev : Int × Entry)
    (evs : List (Int × Entry)) :
    runEntries ctx st (ev :: evs) =
      ((runEntries ctx (stepEntry ctx st ev).1 evs).1,
        (stepEntry ctx st ev).2.toList ++ (runEntries ctx (stepEntry ctx st ev).1 evs).2) := by
  conv_lhs => rw [runEntries, List.foldl_cons]
  have hinit : runStepF ctx (st, []) ev =
      ((stepEntry ctx st ev).1, (stepEntry ctx st ev).2.toList) := by
    simp [runStepF]
  rw [hinit, runEntries_acc]

theorem runEntries_append (ctx : Ctx) (st : AgentState) (l1 l2 : List (Int × Entry)) :
    runEntries ctx st (l1 ++ l2) =
      ((runEntries ctx (runEntries ctx st l1).1 l2).1,
        (runEntries ctx st l1).2 ++ (runEntries ctx (runEntries ctx st l1).1 l2).2) := by
  conv_lhs => rw [runEntries, List.foldl_append]
  rw [show List.foldl (runStepF ctx) (st, ([] : List CrashEvent)) l1 =
        ((runEntries ctx st l1).1, (runEntries ctx st l1).2) from Prod.mk.eta.symm]
  exact runEntries_acc ctx l2 (runEntries ctx st l1).1 (runEntries ctx st l1).2

/-- A latched detector with a strictly-future reset absorbs any entry:
nothing is emitted and the latch and reset survive. -/
theorem stepEntry_latched (ctx : Ctx) (st : AgentState) (t : Int) (e : Entry) (r : Int)
    (hl : st.crashTriggered = true) (hr : st.resetAt = some r) (ht : t < r) :
    (stepEntry ctx st (t, e)).1.crashTriggered = true ∧
    (stepEntry ctx st (t, e)).1.resetAt = some r ∧
    (stepEntry ctx st (t, e)).2 = none := by
  have hnr : ¬ r ≤ t := by omega
  unfold stepEntry fireDueTimers
  rw [hr]
  simp only [hnr, if_false]
  unfold checkForErrorBasedCrash
  split
  · simp [hl, hr]
  · simp [hl, hr]

/-- A latched detector with a strictly-future reset absorbs any entry
sequence arriving before the reset. -/
theorem runEntries_latched (ctx : Ctx) (r : Int) :
    ∀ (evs : List (Int × Entry)) (st : AgentState),
      st.crashTriggered = true → st.resetAt = some r →
      (∀ te ∈ evs, te.1 < r) →
      (runEntries ctx st evs).2 = [] ∧
      (runEntries ctx st evs).1.crashTriggered = true ∧
      (runEntries ctx st evs).1.resetAt = some r := by
  intro evs
  induction evs with
  | nil => intro st h1 h2 _; exact ⟨by simp [runEntries], by simp [runEntries, h1],
      by simp [runEntries, h2]⟩
  | cons ev evs ih =>
    intro st h1 h2 ht
    obtain ⟨s1, s2, s3⟩ := stepEntry_latched ctx st ev.1 ev.2 r h1 h2
      (ht ev (List.mem_cons_self ev evs))
    rw [runEntries_cons]
    obtain ⟨r1, r2, r3⟩ := ih (stepEntry ctx st ev).1 s1 s2
      (fun te hte => ht te (List.mem_cons_of_mem ev hte))
    refine ⟨?_, r2, r3⟩
    rw [r1]
    cases hstep : (stepEntry ctx st (ev.1, ev.2)).2 with
    | none => simp [hstep]
    | some ev0 => rw [show (ev.1, ev.2) = ev from rfl] at hstep; rw [hstep] at s3; cases s3

/-- One quiet-state detector step on a critical entry: either it triggers
(emitting one event and latching with reset `t + 10000`), or it stays
quiet with the window grown by one element and still below the trigger
threshold of 3. -/
theorem stepEntry_quiet_cases (ctx : Ctx) (st : AgentState) (t1 t : Int) (e : Entry)
    (hq : st.crashTriggered = false) (hr : st.resetAt = none)
    (hw : ∀ c ∈ st.recentCriticalErrors, t1 ≤ c.capturedAt)
    (ht1 : t1 ≤ t) (hspan : t < t1 + 60000)
    (hcrit : isCriticalError e.errorType e.message = true) :
    ((stepEntry ctx st (t, e)).2.toList.length = 1 ∧
     (stepEntry ctx st (t, e)).1.crashTriggered = true ∧
     (stepEntry ctx st (t, e)).1.resetAt = some (t + 10000)) ∨
    ((stepEntry ctx st (t, e)).2 = none ∧
     (stepEntry ctx st (t, e)).1.crashTriggered = false ∧
     (stepEntry ctx st (t, e)).1.resetAt = none ∧
     (stepEntry ctx st (t, e)).1.recentCriticalErrors.length =
       st.recentCriticalErrors.length + 1 ∧
     st.recentCriticalErrors.length + 1 < 3 ∧
     (∀ c ∈ (stepEntry ctx st (t, e)).1.recentCriticalErrors, t1 ≤ c.capturedAt)) := by
  have hstep : stepEntry ctx st (t, e) = checkForErrorBasedCrash ctx t e st := by
    unfold stepEntry fireDueTimers
    rw [hr]
  rw [hstep]
  unfold checkForErrorBasedCrash
  simp only [hcrit, if_true]
  have hfilt : (st.recentCriticalErrors ++
        [({ entry := e, capturedAt := t } : CapturedCritical)]).filter
      (fun c => decide (c.capturedAt > t - 60000)) =
      st.recentCriticalErrors ++ [({ entry := e, capturedAt := t } : CapturedCritical)] := by
    rw [List.filter_eq_self]
    intro c hc
    rcases List.mem_append.mp hc with h | h
    · have := hw c h
      simp only [gt_iff_lt, decide_eq_true_eq]
      omega
    · simp only [List.mem_singleton] at h
      subst h
      simp only [gt_iff_lt, decide_eq_true_eq]
      omega
  simp only [hfilt, hq, Bool.not_false, Bool.and_true]
  split
  · left
    unfold triggerCrashFromError
    simp
  · right
    rename_i hstrig
    have hlt : st.recentCriticalErrors.length + 1 < 3 := by
      by_contra hge
      apply hstrig
      simp only [Bool.or_eq_true, decide_eq_true_eq]
      right
      simp only [List.length_append, List.length_singleton]
      omega
    refine ⟨rfl, rfl, hr, by simp, hlt, ?_⟩
    intro c hc
    rcases List.mem_append.mp hc with h | h
    · exact hw c h
    · simp only [List.mem_singleton] at h
      subst h
      exact ht1

/-- Processing any quiet-phase run of critical entries inside the burst
window: either nothing has been emitted and the window stayed under the
threshold, or exactly one event was emitted and the detector is latched
with a reset no earlier than `t1 + 10000`. -/
theorem runEntries_quiet_cases (ctx : Ctx) (t1 : Int) :
    ∀ (evs : List (Int × Entry)) (st : AgentState),
      (∀ te ∈ evs, t1 ≤ te.1 ∧ te.1 < t1 + 10000 ∧
        isCriticalError te.2.errorType te.2.message = true) →
      st.crashTriggered = false → st.resetAt = none →
      (∀ c ∈ st.recentCriticalErrors, t1 ≤ c.capturedAt) →
      st.recentCriticalErrors.length ≤ 2 →
      ((runEntries ctx st evs).2.length = 0 ∧
       (runEntries ctx st evs).1.recentCriticalErrors.length =
         st.recentCriticalErrors.length + evs.length ∧
       (runEntries ctx st evs).1.recentCriticalErrors.length ≤ 2) ∨
      ((runEntries ctx st evs).2.length = 1 ∧
       (runEntries ctx st evs).1.crashTriggered = true ∧
       ∃ r, (runEntries ctx st evs).1.resetAt = some r ∧ t1 + 10000 ≤ r) := by
  intro evs
  induction evs with
  | nil =>
    intro st _ hq hr hw hlen
    left
    exact ⟨by simp [runEntries], by simp [runEntries], by simpa [runEntries] using hlen⟩
  | cons ev evs ih =>
    intro st hevs hq hr hw hlen
    obtain ⟨he1, he2, he3⟩ := hevs ev (List.mem_cons_self ev evs)
    have hevs' : ∀ te ∈ evs, t1 ≤ te.1 ∧ te.1 < t1 + 10000 ∧
        isCriticalError te.2.errorType te.2.message = true :=
      fun te hte => hevs te (List.mem_cons_of_mem ev hte)
    have hpair : ev = (ev.1, ev.2) := rfl
    rcases stepEntry_quiet_cases ctx st t1 ev.1 ev.2 hq hr hw he1 (by omega) he3 with
      ⟨s1, s2, s3⟩ | ⟨s1, s2, s3, s4, s5, s6⟩
    · right
      rw [← hpair] at s1 s2 s3
      obtain ⟨r1, r2, r3⟩ := runEntries_latched ctx (ev.1 + 10000) evs
        (stepEntry ctx st ev).1 s2 s3
        (fun te hte => by have := (hevs' te hte).2.1; omega)
      rw [runEntries_cons]
      refine ⟨?_, r2, ⟨ev.1 + 10000, r3, by omega⟩⟩
      simp only [List.length_append, r1, List.length_nil]
      omega
    · rw [← hpair] at s1 s2 s3 s4 s6
      rcases ih (stepEntry ctx st ev).1 hevs' s2 s3 s6 (by omega) with
        ⟨q1, q2, q3⟩ | ⟨q1, q2, q3⟩
      · left
        rw [runEntries_cons]
        refine ⟨?_, ?_, q3⟩
        · simp only [List.length_append, q1, s1, Option.toList_none, List.length_nil]
        · rw [q2, s4]
          simp [List.length_cons]
          omega
      · right
        rw [runEntries_cons]
        refine ⟨?_, q2, q3⟩
        simp only [List.length_append, q1, s1, Option.toList_none, List.length_nil]

/-- Claim C1: from a clean detector state, a burst of 5 classified-critical
entries within 1 second produces exactly one crash event (not five), and 9
further classified-critical entries within the following 9 seconds --
inside the 10000ms cooldown that starts at the emission -- produce no
second event: the whole 14-entry trace still emits exactly one event. -/
theorem c1_burst_emits_one_event (ctx : Ctx) (t1 : Int) (L1 L2 : List (Int × Entry))
    (st : AgentState)
    (hq : st.crashTriggered = false) (hr : st.resetAt = none)
    (hwin : st.recentCriticalErrors = [])
    (hlen1 : L1.length = 5) (hlen2 : L2.length = 9)
    (hcrit : ∀ te ∈ L1 ++ L2, isCriticalError te.2.errorType te.2.message = true)
    (htime1 : ∀ te ∈ L1, t1 ≤ te.1 ∧ te.1 ≤ t1 + 1000)
    (htime2 : ∀ te ∈ L2, t1 ≤ te.1 ∧ te.1 < t1 + 10000) :
    (runEntries ctx st L1).2.length = 1 ∧
    (runEntries ctx st (L1 ++ L2)).2.length = 1 := by
  have hL1cond : ∀ te ∈ L1, t1 ≤ te.1 ∧ te.1 < t1 + 10000 ∧
      isCriticalError te.2.errorType te.2.message = true := by
    intro te hte
    obtain ⟨h1, h2⟩ := htime1 te hte
    exact ⟨h1, by omega, hcrit te (List.mem_append_left _ hte)⟩
  have hwlen : st.recentCriticalErrors.length ≤ 2 := by rw [hwin]; simp
  have hwmem : ∀ c ∈ st.recentCriticalErrors, t1 ≤ c.capturedAt := by rw [hwin]; simp
  rcases runEntries_quiet_cases ctx t1 L1 st hL1cond hq hr hwmem hwlen with
    ⟨_, q2, q3⟩ | ⟨q1, q2, q3⟩
  · rw [hwin] at q2
    simp only [List.length_nil, Nat.zero_add, hlen1] at q2
    omega
  · obtain ⟨r, hrr, hrge⟩ := q3
    refine ⟨q1, ?_⟩
    rw [runEntries_append]
    obtain ⟨a1, _, _⟩ := runEntries_latched ctx r L2 (runEntries ctx st L1).1 q2 hrr
      (fun te hte => by have := (htime2 te hte).2; omega)
    simp only [List.length_append, a1, List.length_nil, q1]

/-- The concrete 5-entry burst (within 1 second of clock 0) for the C1
witness. -/
def c1Burst : List (Int × Entry) :=
  [(0, refErrorEntry), (200, refErrorEntry), (400, refErrorEntry),
   (600, refErrorEntry), (800, refErrorEntry)]

/-- The concrete 9 follow-up critical entries within the next 9 seconds
for the C1 witness. -/
def c1Tail : List (Int × Entry) :=
  [(1800, refErrorEntry), (2800, refErrorEntry), (3800, refErrorEntry),
   (4800, refErrorEntry), (5800, refErrorEntry), (6800, refErrorEntry),
   (7800, refErrorEntry), (8800, refErrorEntry), (9800, refErrorEntry)]

/-- Witness for the amended C2 at a concrete input. -/
theorem c2_normalize_total_type_nonempty_witness :
    (extractErrorInfo (fun _ => {}) (JSValue.str "hello") 0).type ≠ "" :=
  c2_normalize_total_type_nonempty (fun _ => {}) (JSValue.str "hello") 0

/-- Witness for C1 on a concrete 14-entry trace. -/
theorem c1_burst_emits_one_event_witness :
    (runEntries {} {} c1Burst).2.length = 1 ∧
    (runEntries {} {} (c1Burst ++ c1Tail)).2.length = 1 := by
  exact c1_burst_emits_one_event {} 0 c1Burst c1Tail {} rfl rfl rfl (by decide) (by decide)
    (by decide) (by decide) (by decide)

end L2Agent
